import Mathlib

/-!
Verification of the message-classification and risk-escalation pipeline of the
Wellbeing Assistant backend (src/main.py), shallowly embedded in Lean.

Texts are `String`s; Python `str.lower()` is embedded as a character-wise
lowercase map, and the Python substring test `kw in t` as substring containment
on the underlying character lists.  Risk scores are exact rationals: every
score the program manipulates is a literal (0.0, 0.6, 0.85, 1.0) compared
against the same literals, so the rational model is faithful.

The two `create_document` persistence calls of the `chat` handler are embedded
as an ordered list of document writes produced by the handler (the wall-clock
`occurred_at` timestamp is an external effect and is not part of the document
model).
-/

namespace Wellbeing

/-- Does the first character list occur at the start of the second? -/
def hasPre : List Char → List Char → Bool
  | [], _ => true
  | _ :: _, [] => false
  | a :: as, b :: bs => a == b && hasPre as bs

/-- Does the first character list occur contiguously inside the second? -/
def hasSub (needle : List Char) : List Char → Bool
  | [] => hasPre needle []
  | b :: bs => hasPre needle (b :: bs) || hasSub needle bs

/-- Embedding of the Python substring test `needle in hay`. -/
def substr (needle hay : String) : Bool := hasSub needle.data hay.data

/-- Embedding of Python `text.lower()` (ASCII case folding, character-wise). -/
def lower (s : String) : String := ⟨s.data.map Char.toLower⟩

/-- `EMOJI_RESPONSES` table, main.py lines 69-75. -/
def EMOJI_RESPONSES : List (String × String) :=
  [ ("joy", "I\x27m happy to hear that! Want a fun fact or a joke?"),
    ("sadness", "I\x27m here with you. Want to try a short breathing exercise together?"),
    ("anger", "That sounds frustrating. Want to label the feeling and take a 10-second pause?"),
    ("anxiety", "It’s okay to feel worried. Let\x27s try box breathing: 4-in, 4-hold, 4-out, 4-hold."),
    ("neutral", "I’m listening. Tell me more.") ]

/-- `RISK_KEYWORDS`, main.py lines 77-79. -/
def RISK_KEYWORDS : List String :=
  ["suicide", "kill myself", "end it", "die", "self harm", "cut myself",
   "worthless", "no reason to live"]

/-- The inline strong-negative word list of `risk_score`, main.py line 116. -/
def NEGATIVE_WORDS : List String :=
  ["hopeless", "worthless", "hate myself", "can\x27t go on"]

/-- The inline `joy` keyword list of `classify_emotion`, main.py line 98. -/
def JOY_KEYWORDS : List String := ["happy", "great", "good", "awesome", "yay", ":)"]

/-- The inline `sadness` keyword list of `classify_emotion`, main.py line 100. -/
def SADNESS_KEYWORDS : List String := ["sad", "down", "cry", "depressed", ":("]

/-- The inline `anger` keyword list of `classify_emotion`, main.py line 102. -/
def ANGER_KEYWORDS : List String := ["angry", "mad", "furious", "annoyed"]

/-- The inline `anxiety` keyword list of `classify_emotion`, main.py line 104. -/
def ANXIETY_KEYWORDS : List String := ["worried", "anxious", "scared", "nervous", "panic"]

/-- `classify_emotion`, main.py lines 96-106. -/
def classify_emotion (text : String) : String :=
  let t := lower text
  if JOY_KEYWORDS.any (fun k => substr k t) then "joy"
  else if SADNESS_KEYWORDS.any (fun k => substr k t) then "sadness"
  else if ANGER_KEYWORDS.any (fun k => substr k t) then "anger"
  else if ANXIETY_KEYWORDS.any (fun k => substr k t) then "anxiety"
  else "neutral"

/-- `risk_score`, main.py lines 109-118. -/
def risk_score (text : String) : ℚ :=
  let t := lower text
  let score : ℚ :=
    RISK_KEYWORDS.foldl (fun score kw => if substr kw t then max score (85/100) else score) 0
  let score : ℚ :=
    if NEGATIVE_WORDS.any (fun k => substr k t) then max score (6/10) else score
  min 1 score

/-- Escalation tier of the response-composition branch of `chat`
(main.py lines 139-167): `high` for the first branch, `medium` for the
second, `none` for the `else` branch. -/
inductive Tier
  | high
  | medium
  | none
deriving DecidableEq

/-- `base_reply`, main.py line 137:
`EMOJI_RESPONSES.get(emotion, EMOJI_RESPONSES["neutral"])`. -/
def base_reply (emotion : String) : String :=
  (EMOJI_RESPONSES.lookup emotion).getD ((EMOJI_RESPONSES.lookup "neutral").getD "")

/-- The fixed crisis-support reply of the `score >= 0.85` branch,
main.py lines 140-145. -/
def HIGH_REPLY : String :=
  "I’m really glad you told me. You matter and you deserve help. I’d like to help you reach a trusted adult or a professional. If you\x27re in immediate danger, please call your local emergency number. Would you like me to share a helpful message with your parent now?"

/-- The fixed acknowledgment prepended in the `score >= 0.6` branch,
main.py line 156. -/
def MEDIUM_HEAD : String := "I’m noticing words that sound really hard. "

/-- The fixed help pointer appended in the `score >= 0.6` branch,
main.py line 157. -/
def MEDIUM_TAIL : String := " You can also press ‘I need help’ to contact a trusted adult."

/-- The reply/tier branch of `chat`, main.py lines 139-167: reply string and
which branch (escalation tier) was taken, as a function of the emotion label
and the risk score. -/
def compose (emotion : String) (score : ℚ) : String × Tier :=
  if score ≥ 85/100 then (HIGH_REPLY, Tier.high)
  else if score ≥ 6/10 then (MEDIUM_HEAD ++ base_reply emotion ++ MEDIUM_TAIL, Tier.medium)
  else (base_reply emotion, Tier.none)

/-- Fields of a `riskevent` document as persisted by `chat`
(main.py lines 147-153 and 159-165); `occurred_at` is external wall-clock
time and not modelled. -/
structure RiskEventDoc where
  child_id : String
  level : String
  reason : String
  score : ℚ
deriving DecidableEq

/-- Fields of a `message` document as persisted by `chat`
(main.py lines 170-176). -/
structure MessageDoc where
  child_id : String
  text : String
  emotion : String
  risk_score : ℚ
  response : String
deriving DecidableEq

/-- One `create_document` call: target collection and document fields. -/
inductive DocWrite
  | riskevent : RiskEventDoc → DocWrite
  | message : MessageDoc → DocWrite
deriving DecidableEq

/-- Is this write to the `riskevent` collection? -/
def isRiskWrite : DocWrite → Bool
  | DocWrite.riskevent _ => true
  | DocWrite.message _ => false

/-- `ChatRequest`, main.py lines 121-123. -/
structure ChatRequest where
  child_id : String
  text : String

/-- `ChatResponse`, main.py lines 126-129. -/
structure ChatResponse where
  response : String
  emotion : String
  risk_score : ℚ
deriving DecidableEq

/-- The `chat` handler, main.py lines 132-178: computes the emotion label and
risk score, composes the reply, and returns the response together with the
ordered list of `create_document` calls it performs (a risk-event write when
the matching branch fires, then unconditionally the message write). -/
def chat (req : ChatRequest) : ChatResponse × List DocWrite :=
  let emotion := classify_emotion req.text
  let score := risk_score req.text
  let reply := (compose emotion score).1
  let riskWrites : List DocWrite :=
    match (compose emotion score).2 with
    | Tier.high =>
        [DocWrite.riskevent ⟨req.child_id, "high", "Text trigger keyword", score⟩]
    | Tier.medium =>
        [DocWrite.riskevent ⟨req.child_id, "medium", "Negative self-talk", score⟩]
    | Tier.none => []
  (⟨reply, emotion, score⟩,
   riskWrites ++ [DocWrite.message ⟨req.child_id, req.text, emotion, score, reply⟩])

/-- The five emotion labels of the classifier. -/
def EMOTION_LABELS : List String := ["joy", "sadness", "anger", "anxiety", "neutral"]

example : classify_emotion "good but sad" = "joy" := by decide
example : classify_emotion "" = "neutral" := by decide
example : substr "kill myself" (lower "I want to kill myself") = true := by decide
example : substr "hopeless" (lower "I feel hopeless") = true := by decide

/-- The keyword fold of `risk_score` computes a single floor: it yields
`max s (85/100)` when some keyword matches and `s` otherwise. -/
lemma foldl_max_eq (t : String) (l : List String) (s : ℚ) :
    l.foldl (fun sc kw => if substr kw t then max sc (85/100) else sc) s
      = if l.any (fun kw => substr kw t) then max s (85/100) else s := by
  induction l generalizing s with
  | nil => simp
  | cons kw l ih =>
    simp only [List.foldl_cons, List.any_cons, Bool.or_eq_true]
    by_cases h : substr kw t
    · rw [if_pos h, ih]
      by_cases h2 : l.any (fun k => substr k t) <;>
        simp [h, h2, max_assoc]
    · rw [if_neg h, ih]
      by_cases h2 : l.any (fun k => substr k t) <;> simp [h, h2]

/-- Closed form of `risk_score`: 0.85 on a high-severity keyword match, else
0.6 on a strong-negative word match, else 0. -/
lemma risk_score_eq (t : String) :
    risk_score t =
      if RISK_KEYWORDS.any (fun k => substr k (lower t)) then 85/100
      else if NEGATIVE_WORDS.any (fun k => substr k (lower t)) then 6/10
      else 0 := by
  unfold risk_score
  simp only [foldl_max_eq]
  by_cases hA : RISK_KEYWORDS.any (fun k => substr k (lower t)) <;>
    by_cases hB : NEGATIVE_WORDS.any (fun k => substr k (lower t)) <;>
      simp only [hA, hB, if_true, if_false] <;>
        norm_num [max_def, min_def]

/-- Closed form of the escalation tier chosen by the branch of `chat`. -/
lemma compose_snd (e : String) (q : ℚ) :
    (compose e q).2 =
      if 85/100 ≤ q then Tier.high else if 6/10 ≤ q then Tier.medium else Tier.none := by
  unfold compose
  split_ifs <;> rfl

lemma rs_kill : risk_score "I want to kill myself" = 85/100 := by
  rw [risk_score_eq]
  rw [if_pos (by decide)]

lemma rs_hopeless : risk_score "I feel hopeless" = 6/10 := by
  rw [risk_score_eq]
  rw [if_neg (by decide), if_pos (by decide)]

lemma rs_hello : risk_score "hello" = 0 := by
  rw [risk_score_eq]
  rw [if_neg (by decide), if_neg (by decide)]

lemma tier_kill :
    (compose (classify_emotion "I want to kill myself") (risk_score "I want to kill myself")).2
      = Tier.high := by
  rw [compose_snd, rs_kill, if_pos (by norm_num)]

lemma tier_hopeless :
    (compose (classify_emotion "I feel hopeless") (risk_score "I feel hopeless")).2
      = Tier.medium := by
  rw [compose_snd, rs_hopeless, if_neg (by norm_num), if_pos (by norm_num)]

lemma tier_hello :
    (compose (classify_emotion "hello") (risk_score "hello")).2 = Tier.none := by
  rw [compose_snd, rs_hello, if_neg (by norm_num), if_neg (by norm_num)]

/-- C1: for every emotion label and risk score, the composed escalation tier is
`high` iff score ≥ 0.85, `medium` iff 0.6 ≤ score < 0.85, and `none` iff
score < 0.6, with both lower bounds inclusive: boundary scores 0.6 and 0.85
select `medium` and `high` respectively. -/
theorem tier_mapping_exact (e : String) (q : ℚ) :
    ((compose e q).2 = Tier.high ↔ 85/100 ≤ q) ∧
    ((compose e q).2 = Tier.medium ↔ (6/10 ≤ q ∧ q < 85/100)) ∧
    ((compose e q).2 = Tier.none ↔ q < 6/10) ∧
    (compose e (6/10 : ℚ)).2 = Tier.medium ∧
    (compose e (85/100 : ℚ)).2 = Tier.high := by
  refine ⟨?_, ?_, ?_, ?_, ?_⟩
  · rw [compose_snd]; split_ifs with h1 h2 <;> simp [h1]
  · rw [compose_snd]; split_ifs with h1 h2
    · simp only [iff_def]
      constructor
      · intro h; cases h
      · rintro ⟨h3, h4⟩; linarith
    · simp [h2, not_le.mp h1]
    · simp [h2]
  · rw [compose_snd]; split_ifs with h1 h2
    · simp only [iff_def]
      constructor
      · intro h; cases h
      · intro h; linarith
    · simp [not_lt.mpr h2]
    · simp [not_le.mp h2]
  · rw [compose_snd, if_neg (by norm_num), if_pos (by norm_num)]
  · rw [compose_snd, if_pos (by norm_num)]

/-- C2: a high-severity keyword occurring as a substring of the lowercased
text floors the score at 0.85; a strong-negative word independently floors it
at 0.6 (via max, so a high-severity match is never downgraded); concretely
`risk_score "I want to kill myself" ≥ 0.85` and
`risk_score "I feel hopeless" ∈ [0.6, 0.85)`. -/
theorem risk_score_floors :
    (∀ t kw, kw ∈ RISK_KEYWORDS → substr kw (lower t) = true → 85/100 ≤ risk_score t) ∧
    (∀ t kw, kw ∈ NEGATIVE_WORDS → substr kw (lower t) = true → 6/10 ≤ risk_score t) ∧
    85/100 ≤ risk_score "I want to kill myself" ∧
    6/10 ≤ risk_score "I feel hopeless" ∧ risk_score "I feel hopeless" < 85/100 := by
  have floorHigh : ∀ t kw, kw ∈ RISK_KEYWORDS → substr kw (lower t) = true →
      85/100 ≤ risk_score t := by
    intro t kw hmem hsub
    rw [risk_score_eq, if_pos (List.any_eq_true.mpr ⟨kw, hmem, hsub⟩)]
  have floorMed : ∀ t kw, kw ∈ NEGATIVE_WORDS → substr kw (lower t) = true →
      6/10 ≤ risk_score t := by
    intro t kw hmem hsub
    rw [risk_score_eq]
    by_cases hA : (RISK_KEYWORDS.any fun k => substr k (lower t)) = true
    · rw [if_pos hA]; norm_num
    · rw [if_neg hA, if_pos (List.any_eq_true.mpr ⟨kw, hmem, hsub⟩)]
  refine ⟨floorHigh, floorMed, ?_, ?_, ?_⟩
  · rw [rs_kill]
  · rw [rs_hopeless]
  · rw [rs_hopeless]; norm_num

/-- Witness for `risk_score_floors` at concrete keywords and texts. -/
theorem risk_score_floors_witness :
    ("kill myself" ∈ RISK_KEYWORDS ∧
      substr "kill myself" (lower "I want to kill myself") = true ∧
      85/100 ≤ risk_score "I want to kill myself") ∧
    ("hopeless" ∈ NEGATIVE_WORDS ∧
      substr "hopeless" (lower "I feel hopeless") = true ∧
      6/10 ≤ risk_score "I feel hopeless") :=
  ⟨⟨by decide, by decide,
      risk_score_floors.1 "I want to kill myself" "kill myself" (by decide) (by decide)⟩,
   ⟨by decide, by decide,
      risk_score_floors.2.1 "I feel hopeless" "hopeless" (by decide) (by decide)⟩⟩

/-- C5: the classifier always returns one of the five labels, decided by
substring tests in the fixed priority order joy, sadness, anger, anxiety with
first match winning; "good but sad" classifies as joy. -/
theorem classify_priority_order (t : String) :
    classify_emotion t ∈ EMOTION_LABELS ∧
    (JOY_KEYWORDS.any (fun k => substr k (lower t)) = true →
      classify_emotion t = "joy") ∧
    (JOY_KEYWORDS.any (fun k => substr k (lower t)) = false →
      SADNESS_KEYWORDS.any (fun k => substr k (lower t)) = true →
      classify_emotion t = "sadness") ∧
    (JOY_KEYWORDS.any (fun k => substr k (lower t)) = false →
      SADNESS_KEYWORDS.any (fun k => substr k (lower t)) = false →
      ANGER_KEYWORDS.any (fun k => substr k (lower t)) = true →
      classify_emotion t = "anger") ∧
    (JOY_KEYWORDS.any (fun k => substr k (lower t)) = false →
      SADNESS_KEYWORDS.any (fun k => substr k (lower t)) = false →
      ANGER_KEYWORDS.any (fun k => substr k (lower t)) = false →
      ANXIETY_KEYWORDS.any (fun k => substr k (lower t)) = true →
      classify_emotion t = "anxiety") ∧
    (JOY_KEYWORDS.any (fun k => substr k (lower t)) = false →
      SADNESS_KEYWORDS.any (fun k => substr k (lower t)) = false →
      ANGER_KEYWORDS.any (fun k => substr k (lower t)) = false →
      ANXIETY_KEYWORDS.any (fun k => substr k (lower t)) = false →
      classify_emotion t = "neutral") ∧
    classify_emotion "good but sad" = "joy" := by
  refine ⟨?_, ?_, ?_, ?_, ?_, ?_, by decide⟩
  · simp only [classify_emotion, EMOTION_LABELS]
    split_ifs <;> simp
  · intro h1; simp [classify_emotion, h1]
  · intro h1 h2; simp [classify_emotion, h1, h2]
  · intro h1 h2 h3; simp [classify_emotion, h1, h2, h3]
  · intro h1 h2 h3 h4; simp [classify_emotion, h1, h2, h3, h4]
  · intro h1 h2 h3 h4; simp [classify_emotion, h1, h2, h3, h4]

/-- Witness for `classify_priority_order`: each priority branch discharged at a
concrete text. -/
theorem classify_priority_order_witness :
    classify_emotion "good but sad" = "joy" ∧
    classify_emotion "so sad" = "sadness" ∧
    classify_emotion "i am furious" = "anger" ∧
    classify_emotion "worried sick" = "anxiety" ∧
    classify_emotion "zzz" = "neutral" :=
  ⟨(classify_priority_order "good but sad").2.1 (by decide),
   (classify_priority_order "so sad").2.2.1 (by decide) (by decide),
   (classify_priority_order "i am furious").2.2.2.1 (by decide) (by decide) (by decide),
   (classify_priority_order "worried sick").2.2.2.2.1 (by decide) (by decide) (by decide)
     (by decide),
   (classify_priority_order "zzz").2.2.2.2.2.1 (by decide) (by decide) (by decide) (by decide)⟩

/-- C6: for every text, the risk score lies in the closed interval [0, 1]. -/
theorem risk_score_bounded (t : String) : 0 ≤ risk_score t ∧ risk_score t ≤ 1 := by
  rw [risk_score_eq]; split_ifs <;> norm_num

/-- C10: for every text, the risk score is exactly one of 0, 0.6, 0.85. -/
theorem risk_score_trichotomy (t : String) :
    risk_score t = 0 ∨ risk_score t = 6/10 ∨ risk_score t = 85/100 := by
  rw [risk_score_eq]; split_ifs <;> tauto

set_option maxRecDepth 4000 in
/-- C4: at tier `none` the reply is exactly the emotion base reply; at tier
`medium` it is the fixed head, the base reply, then the fixed tail; at tier
`high` it is the fixed crisis message, which contains no emotion base reply as
a substring; at (anxiety, 0) the reply is the anxiety base reply, and any
score 0.9 yields the crisis message. -/
theorem reply_shape_per_tier (e : String) (q : ℚ) :
    (q < 6/10 → (compose e q).1 = base_reply e) ∧
    (6/10 ≤ q → q < 85/100 →
      (compose e q).1 = MEDIUM_HEAD ++ base_reply e ++ MEDIUM_TAIL) ∧
    (85/100 ≤ q → (compose e q).1 = HIGH_REPLY) ∧
    (compose "anxiety" (0 : ℚ)).1 = base_reply "anxiety" ∧
    (compose e (9/10 : ℚ)).1 = HIGH_REPLY ∧
    (∀ lbl ∈ EMOTION_LABELS, substr (base_reply lbl) HIGH_REPLY = false) := by
  refine ⟨?_, ?_, ?_, ?_, ?_, by decide⟩
  · intro h; unfold compose; split_ifs with h1 h2
    · exfalso; linarith
    · exfalso; linarith
    · rfl
  · intro h1 h2; unfold compose; split_ifs with h3
    · exfalso; linarith
    · rfl
  · intro h; unfold compose; rw [if_pos h]
  · unfold compose
    rw [if_neg (by norm_num), if_neg (by norm_num)]
  · unfold compose
    rw [if_pos (by norm_num)]

/-- Witness for `reply_shape_per_tier` at concrete emotions and scores. -/
theorem reply_shape_per_tier_witness :
    ((0 : ℚ) < 6/10 ∧ (compose "anxiety" (0 : ℚ)).1 = base_reply "anxiety") ∧
    ((6 : ℚ)/10 ≤ 6/10 ∧ (6 : ℚ)/10 < 85/100 ∧
      (compose "anger" (6/10 : ℚ)).1 = MEDIUM_HEAD ++ base_reply "anger" ++ MEDIUM_TAIL) ∧
    ((85 : ℚ)/100 ≤ 9/10 ∧ (compose "joy" (9/10 : ℚ)).1 = HIGH_REPLY) :=
  ⟨⟨by norm_num, (reply_shape_per_tier "anxiety" 0).1 (by norm_num)⟩,
   ⟨by norm_num, by norm_num,
     (reply_shape_per_tier "anger" (6/10)).2.1 (by norm_num) (by norm_num)⟩,
   ⟨by norm_num, (reply_shape_per_tier "joy" (9/10)).2.2.1 (by norm_num)⟩⟩

/-- C3: when the tier is `high`, the handler persists exactly one risk event,
with level "high" and reason "Text trigger keyword"; when `medium`, exactly
one with level "medium" and reason "Negative self-talk"; when `none`, no risk
event is persisted. -/
theorem risk_event_per_tier (req : ChatRequest) :
    ((compose (classify_emotion req.text) (risk_score req.text)).2 = Tier.high →
      (chat req).2.filter isRiskWrite =
        [DocWrite.riskevent
          ⟨req.child_id, "high", "Text trigger keyword", risk_score req.text⟩]) ∧
    ((compose (classify_emotion req.text) (risk_score req.text)).2 = Tier.medium →
      (chat req).2.filter isRiskWrite =
        [DocWrite.riskevent
          ⟨req.child_id, "medium", "Negative self-talk", risk_score req.text⟩]) ∧
    ((compose (classify_emotion req.text) (risk_score req.text)).2 = Tier.none →
      (chat req).2.filter isRiskWrite = []) := by
  refine ⟨?_, ?_, ?_⟩ <;> intro h <;> simp [chat, h, isRiskWrite]

/-- Witness for `risk_event_per_tier` at one request per tier. -/
theorem risk_event_per_tier_witness :
    ((compose (classify_emotion "I want to kill myself")
        (risk_score "I want to kill myself")).2 = Tier.high ∧
      (chat ⟨"c1", "I want to kill myself"⟩).2.filter isRiskWrite =
        [DocWrite.riskevent
          ⟨"c1", "high", "Text trigger keyword", risk_score "I want to kill myself"⟩]) ∧
    ((compose (classify_emotion "I feel hopeless") (risk_score "I feel hopeless")).2
        = Tier.medium ∧
      (chat ⟨"c1", "I feel hopeless"⟩).2.filter isRiskWrite =
        [DocWrite.riskevent
          ⟨"c1", "medium", "Negative self-talk", risk_score "I feel hopeless"⟩]) ∧
    ((compose (classify_emotion "hello") (risk_score "hello")).2 = Tier.none ∧
      (chat ⟨"c1", "hello"⟩).2.filter isRiskWrite = []) :=
  ⟨⟨tier_kill, (risk_event_per_tier ⟨"c1", "I want to kill myself"⟩).1 tier_kill⟩,
   ⟨tier_hopeless, (risk_event_per_tier ⟨"c1", "I feel hopeless"⟩).2.1 tier_hopeless⟩,
   ⟨tier_hello, (risk_event_per_tier ⟨"c1", "hello"⟩).2.2 tier_hello⟩⟩

lemma chat_hopeless :
    chat ⟨"c1", "I feel hopeless"⟩ =
      (⟨MEDIUM_HEAD ++ base_reply "neutral" ++ MEDIUM_TAIL, "neutral", 6/10⟩,
       [DocWrite.riskevent ⟨"c1", "medium", "Negative self-talk", 6/10⟩,
        DocWrite.message ⟨"c1", "I feel hopeless", "neutral", 6/10,
          MEDIUM_HEAD ++ base_reply "neutral" ++ MEDIUM_TAIL⟩]) := by
  have hc : classify_emotion "I feel hopeless" = "neutral" := by decide
  simp only [chat, hc, rs_hopeless, compose]
  norm_num

/-- C7: every risk event the handler persists carries the same score as the
message document persisted for that request (both are the scorer output on
the request text), and the escalation tier is a function of that score alone:
requests with equal scores get equal tiers regardless of child or text. -/
theorem risk_event_score_matches_message (req : ChatRequest) :
    (∀ d, DocWrite.riskevent d ∈ (chat req).2 → d.score = risk_score req.text) ∧
    (∀ m, DocWrite.message m ∈ (chat req).2 → m.risk_score = risk_score req.text) ∧
    (∀ req2 : ChatRequest, risk_score req.text = risk_score req2.text →
      (compose (classify_emotion req.text) (risk_score req.text)).2
        = (compose (classify_emotion req2.text) (risk_score req2.text)).2) := by
  refine ⟨?_, ?_, ?_⟩
  · intro d hd
    cases hc : (compose (classify_emotion req.text) (risk_score req.text)).2 <;>
      simp [chat, hc] at hd <;> simp [hd]
  · intro m hm
    cases hc : (compose (classify_emotion req.text) (risk_score req.text)).2 <;>
      simp [chat, hc] at hm <;> simp [hm]
  · intro req2 hscore
    rw [compose_snd, compose_snd, hscore]

/-- Witness for `risk_event_score_matches_message` at a medium-tier request. -/
theorem risk_event_score_matches_message_witness :
    (DocWrite.riskevent ⟨"c1", "medium", "Negative self-talk", 6/10⟩ ∈
        (chat ⟨"c1", "I feel hopeless"⟩).2 ∧
      (⟨"c1", "medium", "Negative self-talk", 6/10⟩ : RiskEventDoc).score
        = risk_score "I feel hopeless") ∧
    (DocWrite.message ⟨"c1", "I feel hopeless", "neutral", 6/10,
          MEDIUM_HEAD ++ base_reply "neutral" ++ MEDIUM_TAIL⟩ ∈
        (chat ⟨"c1", "I feel hopeless"⟩).2 ∧
      (⟨"c1", "I feel hopeless", "neutral", 6/10,
          MEDIUM_HEAD ++ base_reply "neutral" ++ MEDIUM_TAIL⟩ : MessageDoc).risk_score
        = risk_score "I feel hopeless") ∧
    (risk_score "I feel hopeless" = risk_score "I feel hopeless" ∧
      (compose (classify_emotion "I feel hopeless") (risk_score "I feel hopeless")).2
        = (compose (classify_emotion "I feel hopeless") (risk_score "I feel hopeless")).2) :=
  ⟨⟨by rw [chat_hopeless]; simp,
    (risk_event_score_matches_message ⟨"c1", "I feel hopeless"⟩).1 _
      (by rw [chat_hopeless]; simp)⟩,
   ⟨by rw [chat_hopeless]; simp,
    (risk_event_score_matches_message ⟨"c1", "I feel hopeless"⟩).2.1 _
      (by rw [chat_hopeless]; simp)⟩,
   ⟨rfl,
    (risk_event_score_matches_message ⟨"c1", "I feel hopeless"⟩).2.2
      ⟨"c2", "I feel hopeless"⟩ rfl⟩⟩

/-- C8: for every request, exactly one message document is persisted,
unconditionally, and it is the last write: the write list is the risk-event
writes (if any) followed by the single message write. -/
theorem message_write_unconditional (req : ChatRequest) :
    ((chat req).2.filter (fun w => !(isRiskWrite w)) =
      [DocWrite.message ⟨req.child_id, req.text, classify_emotion req.text,
        risk_score req.text, (chat req).1.response⟩]) ∧
    ∃ pre, ((chat req).2 =
        pre ++ [DocWrite.message ⟨req.child_id, req.text, classify_emotion req.text,
          risk_score req.text, (chat req).1.response⟩]) ∧
      pre.all isRiskWrite = true := by
  cases hc : (compose (classify_emotion req.text) (risk_score req.text)).2
  case high =>
    refine ⟨by simp [chat, hc, isRiskWrite], ?_⟩
    exact ⟨[DocWrite.riskevent
        ⟨req.child_id, "high", "Text trigger keyword", risk_score req.text⟩],
      by simp [chat, hc], by simp [isRiskWrite]⟩
  case medium =>
    refine ⟨by simp [chat, hc, isRiskWrite], ?_⟩
    exact ⟨[DocWrite.riskevent
        ⟨req.child_id, "medium", "Negative self-talk", risk_score req.text⟩],
      by simp [chat, hc], by simp [isRiskWrite]⟩
  case none =>
    refine ⟨by simp [chat, hc, isRiskWrite], ?_⟩
    exact ⟨[], by simp [chat, hc], by simp⟩

/-- C9: the classifier and scorer are total functions of the text; empty text
and text matching no keyword yield the default label "neutral" and score 0. -/
theorem classify_score_defaults :
    classify_emotion "" = "neutral" ∧ risk_score "" = 0 ∧
    (∀ t, JOY_KEYWORDS.any (fun k => substr k (lower t)) = false →
      SADNESS_KEYWORDS.any (fun k => substr k (lower t)) = false →
      ANGER_KEYWORDS.any (fun k => substr k (lower t)) = false →
      ANXIETY_KEYWORDS.any (fun k => substr k (lower t)) = false →
      classify_emotion t = "neutral") ∧
    (∀ t, RISK_KEYWORDS.any (fun k => substr k (lower t)) = false →
      NEGATIVE_WORDS.any (fun k => substr k (lower t)) = false →
      risk_score t = 0) := by
  refine ⟨by decide, ?_, ?_, ?_⟩
  · rw [risk_score_eq, if_neg (by decide), if_neg (by decide)]
  · intro t h1 h2 h3 h4
    simp [classify_emotion, h1, h2, h3, h4]
  · intro t hA hB
    rw [risk_score_eq, if_neg (by simp [hA]), if_neg (by simp [hB])]

/-- Witness for `classify_score_defaults` at a keyword-free text. -/
theorem classify_score_defaults_witness :
    classify_emotion "zzz" = "neutral" ∧ risk_score "zzz" = 0 :=
  ⟨classify_score_defaults.2.2.1 "zzz" (by decide) (by decide) (by decide) (by decide),
   classify_score_defaults.2.2.2 "zzz" (by decide) (by decide)⟩

end Wellbeing
